import Mathlib

/-
Shallow embedding of the tarot-bot reading-session orchestrator and its
sqlite-backed state store, translated from src/app/bot.py, src/app/database.py
and src/app/constants.py, together with theorems settling the specification
claims C1 to C10 against the embedded code.

Modelling conventions:
- Python ints are embedded as Lean Int, timestamps and time differences as
  Rat (datetime carries microsecond resolution, and total_seconds returns a
  fractional number of seconds; Rat represents every such value exactly).
- Each fallible database read is embedded by passing the outcome of the read
  as an explicit argument of type Fetch: a connection or query failure, an
  absent row, or a row whose payload carries the result of parsing the stored
  text (none when the parse raises, which the surrounding handler catches).
- The Telegram sends, sleeps and database writes performed by handle_message
  are embedded as a trace: the function returns the list of effect events it
  performs, in order. Nondeterministic inputs (the cooldown-check result, the
  drawn cards, the test-mode flag, the text-generation outcome, and which, if
  any, plain send raises an exception) are arguments. send_card_image catches
  all of its own exceptions internally (bot.py lines 97-145), so card-image
  steps never raise; the remaining send_message calls are the possible
  raise points, enumerated by FailPoint.
-/

namespace TarotBot

/-- Outcome of one sqlite read as seen by the surrounding Python try-block:
the query itself failed, the query ran but returned no row, or a row was
returned and its stored text was parsed with the given result (none when the
parse raised an exception, caught by the same handler as the query). -/
inductive Fetch (α : Type) where
  | err : Fetch α
  | missing : Fetch α
  | found : α → Fetch α
deriving DecidableEq, Repr

/-- Database.get_cooldown_minutes (database.py lines 69-83): returns the
parsed stored value when the bot_settings row for cooldown_minutes exists and
int() succeeds on it; every other outcome (no row, query error, parse error)
falls back to the default 1440 minutes. -/
def get_cooldown_minutes (setting : Fetch (Option ℤ)) : ℤ :=
  match setting with
  | .found (some n) => n
  | .found none => 1440
  | .missing => 1440
  | .err => 1440

/-- Database.get_remaining_cooldown_minutes (database.py lines 102-130).
Arguments: the fetched cooldown setting, the fetched user_cooldowns row for
the user (payload = the datetime parsed from the stored ISO string, in
seconds), and the current time in seconds. A query error or an unparseable
stored timestamp raises inside the try-block and the handler returns 0; an
absent row returns 0. Otherwise remaining_seconds = cooldown_minutes * 60 -
(now - last_request); nonpositive remaining returns 0, and a positive
remaining returns max 1 (floor ((remaining_seconds + 59) / 60)), matching
int((remaining_seconds + 59) // 60) on the nonnegative float. -/
def get_remaining_cooldown_minutes (setting : Fetch (Option ℤ))
    (row : Fetch (Option ℚ)) (now : ℚ) : ℤ :=
  let cooldown_minutes := get_cooldown_minutes setting
  let cooldown_seconds : ℚ := cooldown_minutes * 60
  match row with
  | .err => 0
  | .missing => 0
  | .found none => 0
  | .found (some last_request) =>
    let time_diff := now - last_request
    let remaining_seconds := cooldown_seconds - time_diff
    if remaining_seconds ≤ 0 then 0
    else max 1 ⌊(remaining_seconds + 59) / 60⌋

/-- Database.is_on_cooldown (database.py lines 132-140): first component true
means the user is on cooldown (the request is not allowed), second component
is the remaining minutes. -/
def is_on_cooldown (setting : Fetch (Option ℤ)) (row : Fetch (Option ℚ))
    (now : ℚ) : Bool × ℤ :=
  let remaining_minutes := get_remaining_cooldown_minutes setting row now
  (decide (remaining_minutes > 0), remaining_minutes)

/-- Columns of the bot_settings table as created by Database.init
(database.py lines 25-30): only key and value. -/
def bot_settings_columns : List String := ["key", "value"]

/-- Columns named by the INSERT OR REPLACE statement inside
Database.set_cooldown_minutes (database.py lines 89-94). -/
def set_cooldown_insert_columns : List String := ["key", "value", "updated_at", "updated_by"]

/-- INSERT OR REPLACE on a single-key settings table: replace the value of an
existing row with the same key, or append a new row. -/
def settings_upsert (key value : String) (settings : List (String × String)) :
    List (String × String) :=
  if settings.any (fun r => decide (r.1 = key)) then
    settings.map (fun r => if r.1 = key then (key, value) else r)
  else settings ++ [(key, value)]

/-- Database.set_cooldown_minutes (database.py lines 85-100). sqlite accepts
an INSERT only when every column it names exists on the target table;
otherwise the execute call raises, the handler logs and returns False, and
the uncommitted transaction leaves the stored settings unchanged. -/
def set_cooldown_minutes (minutes : ℤ) (updated_by : ℤ)
    (settings : List (String × String)) : List (String × String) × Bool :=
  if set_cooldown_insert_columns.all (fun c => bot_settings_columns.contains c) then
    (settings_upsert "cooldown_minutes" (toString minutes) settings, true)
  else
    (settings, false)

/-- The methods defined on the Database class in database.py. -/
def database_class_methods : List String :=
  ["__init__", "_ensure_db_dir", "init", "get_cooldown_minutes",
   "set_cooldown_minutes", "get_remaining_cooldown_minutes", "is_on_cooldown",
   "update_last_request", "log_request", "get_user_stats",
   "cleanup_old_records", "is_test_mode", "toggle_test_mode", "close"]

/-- Python str.lower, character by character. -/
def py_lower (s : String) : String := ⟨s.data.map Char.toLower⟩

/-- Database.is_test_mode (database.py lines 241-253): fetch the test_mode
row of bot_settings; with a row, the result is row value lowercased compared
to the text true; with no row (or on error) False. -/
def is_test_mode (settings : List (String × String)) : Bool :=
  match settings.lookup "test_mode" with
  | some v => py_lower v == "true"
  | none => false

/-- Database.toggle_test_mode (database.py lines 255-271): read the current
mode, then UPDATE the test_mode row to the negated value (an UPDATE touches
only rows whose key matches; with no such row it changes nothing) and return
the negation of the mode that was read. -/
def toggle_test_mode (settings : List (String × String)) :
    List (String × String) × Bool :=
  let current_mode := is_test_mode settings
  let new_mode := if current_mode then "false" else "true"
  (settings.map (fun r => if r.1 = "test_mode" then (r.1, new_mode) else r),
   !current_mode)

/-- User-visible message payloads sent by the handlers in bot.py. Text
formatting (HTML escaping and markdown-to-HTML conversion of the
generated text, messages.py) is outside the modelled surface; each
constructor carries the data the message is built from. -/
inductive Msg where
  | cooldownNotice : ℤ → Msg
  | readingStart : Msg
  | secondCardIntro : Msg
  | thirdCardIntro : Msg
  | pastCard : String → Msg
  | presentCard : String → Msg
  | futureCard : String → Msg
  | interpretationStart : Msg
  | testModeNotice : Msg
  | interpretationText : String → Msg
  | powersUnavailable : Msg
  | errorMessage : Msg
deriving DecidableEq, Repr

/-- Effect events performed by one handle_message invocation, in program
order: database writes, the card draw, message sends, card-image steps
(photo plus caption, bot.py send_card_image) and pacing sleeps. -/
inductive Ev where
  | recordActivity : ℤ → Ev
  | drawCards : List String → Ev
  | send : Msg → Ev
  | sendCardImage : String → Msg → Ev
  | logRequest : ℤ → String → String → List String → Bool → Ev
  | sleep : ℕ → Ev
deriving DecidableEq, Repr

/-- Which plain send_message call of the session, if any, raises. The calls
wrapped only by the outer try (bot.py lines 363-456) lead to the outer
handler; the calls inside the inner try (lines 399-441) lead to the inner
handler; the cooldown notice is covered only by the outermost try
(lines 337-472). finalSend is the last send of the session: the
interpretation text, or the test-mode notice in test mode. -/
inductive FailPoint where
  | noFailure : FailPoint
  | cooldownNoticeSend : FailPoint
  | readingStartSend : FailPoint
  | secondIntroSend : FailPoint
  | thirdIntroSend : FailPoint
  | interpStartSend : FailPoint
  | finalSend : FailPoint
deriving DecidableEq, Repr

/-- messages.py CARDS_SILENT, substituted when the generated text is empty. -/
def CARDS_SILENT : String := "🔮 Карты хранят молчание..."

/-- Python exceptions relevant to the embedded handlers. -/
inductive PyErr where
  | attributeError : PyErr
deriving DecidableEq, Repr

/-- switch_mode_command (bot.py lines 298-321). A non-administrator gets the
powers-unavailable notice and nothing else happens. For an administrator the
code reads the mode via db.is_test_mode and then calls db.set_test_mode
(bot.py line 313) - a method the Database class does not define (see
database_class_methods), so Python raises AttributeError before any write
or send; the command has no handler for it, the stored settings are
unchanged and no confirmation message is sent. -/
def switch_mode_command (user_id : ℤ) (admins : List ℤ)
    (settings : List (String × String)) :
    List (String × String) × List Msg × Option PyErr :=
  if user_id ∈ admins then
    (settings, [], some .attributeError)
  else
    (settings, [.powersUnavailable], none)

/-- Database.update_last_request (database.py lines 142-155): INSERT into
user_cooldowns with ON CONFLICT(user_id) DO UPDATE, i.e. replace the row
with the conflicting primary key if present, else append a new row. The
stored text is the ISO timestamp of now; the table is modelled with parsed
timestamps. -/
def update_last_request (user_id : ℤ) (now : ℚ) (table : List (ℤ × ℚ)) :
    List (ℤ × ℚ) :=
  if table.any (fun r => decide (r.1 = user_id)) then
    table.map (fun r => if r.1 = user_id then (user_id, now) else r)
  else
    table ++ [(user_id, now)]

/-- One row of the request_log table (database.py lines 39-49, written by
Database.log_request): the username column is nullable, the cards column
holds the comma-joined card list, the timestamp is modelled parsed. -/
structure LogEntry where
  user_id : ℤ
  username : Option String
  question : String
  cards : String
  timestamp : ℚ
  success : Bool
deriving DecidableEq, Repr

/-- The dictionary built by Database.get_user_stats. successful_requests and
failed_requests mirror SQL SUM aggregates, which yield NULL (not 0) over an
empty row set, hence Option. -/
structure Stats where
  period_days : ℕ
  total_requests : ℕ
  unique_users : ℕ
  successful_requests : Option ℕ
  failed_requests : Option ℕ
  top_users : List (String × ℕ)
  top_questions : List (String × ℕ)
deriving DecidableEq, Repr

/-- GROUP BY with COUNT over a list of values: one pair per distinct value,
in first-occurrence order. -/
def group_counts (xs : List String) : List (String × ℕ) :=
  xs.dedup.map (fun v => (v, xs.count v))

/-- ORDER BY count DESC LIMIT 5. -/
def top_five (rows : List (String × ℕ)) : List (String × ℕ) :=
  (rows.mergeSort (fun a b => decide (b.2 ≤ a.2))).take 5

/-- Database.get_user_stats (database.py lines 169-221). The readable flag
is false when any of the queries raises, in which case the handler returns
the empty dict, modelled as none. Otherwise the window is the trailing
days-day interval before now (86400 seconds per day); COUNT aggregates are
0 over an empty window but the SUM aggregates are NULL over an empty
window; the top lists group by the non-null usernames and by the exact
question strings. -/
def get_user_stats (log : List LogEntry) (days : ℕ) (now : ℚ)
    (readable : Bool) : Option Stats :=
  if readable then
    let cutoff : ℚ := now - days * 86400
    let window := log.filter (fun e => decide (cutoff < e.timestamp))
    some
      { period_days := days
        total_requests := window.length
        unique_users := (window.map (fun e => e.user_id)).dedup.length
        successful_requests :=
          if window.isEmpty then none else some (window.countP (fun e => e.success))
        failed_requests :=
          if window.isEmpty then none else some (window.countP (fun e => !e.success))
        top_users := top_five (group_counts (window.filterMap (fun e => e.username)))
        top_questions := top_five (group_counts (window.map (fun e => e.question))) }
  else none

/-- The card catalog of constants.py (TAROT_CARDS): card name paired with
its image file name, in source order. -/
def TAROT_CARDS : List (String × String) :=
  [("Шут", "fool.jpg"), ("Маг", "magician.jpg"),
   ("Верховная Жрица", "high_priestess.jpg"), ("Императрица", "empress.jpg"),
   ("Император", "emperor.jpg"), ("Иерофант", "hierophant.jpg"),
   ("Влюбленные", "lovers.jpg"), ("Колесница", "chariot.jpg"),
   ("Сила", "strength.jpg"), ("Отшельник", "hermit.jpg"),
   ("Колесо Фортуны", "wheel_of_fortune.jpg"),
   ("Справедливость", "justice.jpg"), ("Повешенный", "hanged_man.jpg"),
   ("Смерть", "death.jpg"), ("Умеренность", "temperance.jpg"),
   ("Дьявол", "devil.jpg"), ("Башня", "tower.jpg"), ("Звезда", "star.jpg"),
   ("Луна", "moon.jpg"), ("Солнце", "sun.jpg"), ("Суд", "judgement.jpg"),
   ("Мир", "world.jpg"), ("Туз Кубков", "cups_ace.jpg"),
   ("Двойка Жезлов", "wands_two.jpg"), ("Тройка Мечей", "swords_three.jpg"),
   ("Четверка Пентаклей", "pentacles_four.jpg"),
   ("Пятерка Жезлов", "wands_five.jpg"), ("Шестерка Кубков", "cups_six.jpg"),
   ("Семерка Мечей", "swords_seven.jpg"),
   ("Восьмерка Пентаклей", "pentacles_eight.jpg"),
   ("Девятка Кубков", "cups_nine.jpg"), ("Десятка Жезлов", "wands_ten.jpg"),
   ("Паж Кубков", "cups_page.jpg"), ("Рыцарь Мечей", "swords_knight.jpg"),
   ("Королева Пентаклей", "pentacles_queen.jpg"),
   ("Король Жезлов", "wands_king.jpg")]

/-- list(TAROT_CARDS.keys()) of bot.py line 357: the draw population. -/
def tarot_catalog : List String := TAROT_CARDS.map Prod.fst

/-- random.sample(population, k): selects k distinct positions of the
population and returns the elements at those positions in selection order.
The selected positions are the nondeterminism argument; validity (distinct,
in range, k of them) is a hypothesis of the theorems. -/
def randomSample (population : List String) (idxs : List ℕ) : List String :=
  idxs.map (fun i => population.getD i "")

/-- handle_message (bot.py lines 329-472) as a trace of effect events.
Arguments carry the outcome of every awaited call: cooldownRes is what
db.is_on_cooldown returned, cards what random.sample returned, testMode what
db.is_test_mode returned, gptResult the outcome of evaluating
yandex_gpt.generate_interpretation(cards, question) (error when the client
object is absent and the attribute access raises; the method itself catches
its own exceptions and returns text), fail which plain send raises, if any.
Control flow: a cooldown-rejected session sends only the notice (a raising
notice send reaches the outermost handler, which logs a failure entry and
sends the error message). An accepted session records activity, draws, and
narrates; a raise at the reading-start or intro sends reaches the outer
handler (failure log entry with empty card list, then the error message); a
raise at the interpretation-start send or in the generation call reaches the
inner handler (powers-unavailable notice, no log entry). In test mode for an
administrator the generation call is skipped and nothing is logged. In the
remaining path the success entry is logged and then the interpretation text
(or the cards-silent fallback when the text is empty) is sent; if that last
send raises, the inner handler adds the powers-unavailable notice. -/
def handle_message (uid : ℤ) (username question : String) (admins : List ℤ)
    (cooldownRes : Bool × ℤ) (cards : List String) (testMode : Bool)
    (gptResult : Except Unit String) (fail : FailPoint) : List Ev :=
  if cooldownRes.1 then
    .send (.cooldownNotice cooldownRes.2) ::
      (if fail = .cooldownNoticeSend then
        [.logRequest uid username question [] false, .send .errorMessage]
      else [])
  else
    .recordActivity uid :: .drawCards cards :: .send .readingStart ::
    (if fail = .readingStartSend then
      [.logRequest uid username question [] false, .send .errorMessage]
    else
      .sleep 2 :: .sendCardImage (cards.getD 0 "") (.pastCard (cards.getD 0 "")) ::
      .sleep 2 :: .send .secondCardIntro ::
      (if fail = .secondIntroSend then
        [.logRequest uid username question [] false, .send .errorMessage]
      else
        .sleep 1 :: .sendCardImage (cards.getD 1 "") (.presentCard (cards.getD 1 "")) ::
        .sleep 2 :: .send .thirdCardIntro ::
        (if fail = .thirdIntroSend then
          [.logRequest uid username question [] false, .send .errorMessage]
        else
          .sleep 1 :: .sendCardImage (cards.getD 2 "") (.futureCard (cards.getD 2 "")) ::
          .sleep 2 :: .send .interpretationStart ::
          (if fail = .interpStartSend then [.send .powersUnavailable]
          else
            .sleep 3 ::
            (if testMode ∧ uid ∈ admins then
              .send .testModeNotice ::
                (if fail = .finalSend then [.send .powersUnavailable] else [])
            else
              match gptResult with
              | .error _ => [.send .powersUnavailable]
              | .ok response =>
                .logRequest uid username question cards true ::
                .send (.interpretationText
                  (if response = "" then CARDS_SILENT else response)) ::
                (if fail = .finalSend then [.send .powersUnavailable] else []))))))

/-- Recognizes the database log-write event. -/
def isLogRequest : Ev → Bool
  | .logRequest _ _ _ _ _ => true
  | _ => false

/-- The log-write events of a trace, in order. -/
def logEvents (trace : List Ev) : List Ev := trace.filter isLogRequest

/-- The captions of the card-image steps of a trace, in order: the role
labels assigned to the drawn cards. -/
def cardImageCaptions (trace : List Ev) : List Msg :=
  trace.filterMap (fun e => match e with
    | .sendCardImage _ caption => some caption
    | _ => none)

/-- Arithmetic core of the minute rounding: for a positive whole number r of
remaining seconds, max 1 (floor ((r + 59) / 60)) equals the ceiling of r / 60
minutes. -/
theorem plus59_floor_eq_ceil (r : ℤ) (h : 0 < r) :
    max 1 ⌊((r : ℚ) + 59) / 60⌋ = ⌈(r : ℚ) / 60⌉ := by
  have hmod := Int.emod_add_ediv (r + 59) 60
  have hm0 : 0 ≤ (r + 59) % 60 := Int.emod_nonneg _ (by norm_num)
  have hm1 : (r + 59) % 60 < 60 := Int.emod_lt_of_pos _ (by norm_num)
  set q : ℤ := (r + 59) / 60 with hq
  have hlo : 60 * q ≤ r + 59 := by omega
  have hhi : r + 59 < 60 * q + 60 := by omega
  have hfloor : ⌊((r : ℚ) + 59) / 60⌋ = q := by
    have hcast : ((r : ℚ) + 59) / 60 = ((r + 59 : ℤ) : ℚ) / ((60 : ℕ) : ℚ) := by
      push_cast; ring
    rw [hcast, Rat.floor_intCast_div_natCast]
    exact_mod_cast hq.symm
  have hq1 : 1 ≤ q := by omega
  have hceil : ⌈(r : ℚ) / 60⌉ = q := by
    rw [Int.ceil_eq_iff]
    constructor
    · rw [lt_div_iff (by norm_num : (0 : ℚ) < 60)]
      have hr : ((60 * q - 60 : ℤ) : ℚ) < (r : ℤ) := by exact_mod_cast by omega
      push_cast at hr ⊢
      linarith
    · rw [div_le_iff (by norm_num : (0 : ℚ) < 60)]
      have hr : ((r : ℤ) : ℚ) ≤ ((60 * q : ℤ) : ℚ) := by exact_mod_cast by omega
      push_cast at hr ⊢
      linarith
  rw [hfloor, hceil, max_eq_right hq1]

/-- C1 counterexample. Configured cooldown 2 minutes, last activity recorded
59.5 seconds before now (timestamps 0 and 119/2 seconds): the remaining
cooldown is 121/2 = 60.5 seconds, whose ceiling in whole minutes is 2, but
the code reports 1 minute: int((60.5 + 59) // 60) = 1. So the claimed value
ceil((C - d) / 1 minute) differs from what the check returns. -/
theorem C1_counterexample :
    is_on_cooldown (.found (some 2)) (.found (some 0)) (119 / 2) = (true, 1)
    ∧ ⌈((2 : ℚ) * 60 - 119 / 2) / 60⌉ = 2 ∧ (1 : ℤ) ≠ 2 := by
  refine ⟨?_, ?_, by decide⟩
  · show (decide _, _) = _
    norm_num [is_on_cooldown, get_remaining_cooldown_minutes, get_cooldown_minutes]
  · rw [Int.ceil_eq_iff] <;> norm_num

/-- C1 (amended): with configured cooldown C minutes, a user with no stored
last-activity row gets (not on cooldown, 0); with last activity d seconds
ago, if d is at least C minutes the check returns (not on cooldown, 0), and
if d is less than C minutes it returns on-cooldown with remaining
max 1 (floor ((C*60 - d + 59) / 60)) minutes, always at least 1; whenever
the remaining time C*60 - d is a whole number r of seconds this value equals
the ceiling of r / 60 minutes (it can fall one short of the ceiling only for
fractional-second remainders, as in the counterexample). -/
theorem C1_cooldown_evaluation (C : ℤ) (d now : ℚ) :
    is_on_cooldown (.found (some C)) .missing now = (false, 0)
    ∧ ((C : ℚ) * 60 ≤ d →
        is_on_cooldown (.found (some C)) (.found (some (now - d))) now = (false, 0))
    ∧ (d < (C : ℚ) * 60 →
        is_on_cooldown (.found (some C)) (.found (some (now - d))) now
          = (true, max 1 ⌊((C : ℚ) * 60 - d + 59) / 60⌋)
        ∧ 1 ≤ (is_on_cooldown (.found (some C)) (.found (some (now - d))) now).2)
    ∧ (∀ r : ℤ, 0 < r → (C : ℚ) * 60 - d = r →
        (is_on_cooldown (.found (some C)) (.found (some (now - d))) now).2
          = ⌈(r : ℚ) / 60⌉) := by
  have hdiff : now - (now - d) = d := by ring
  refine ⟨?_, ?_, ?_, ?_⟩
  · simp [is_on_cooldown, get_remaining_cooldown_minutes]
  · intro hle
    have hnp : (C : ℚ) * 60 - d ≤ 0 := by linarith
    simp only [is_on_cooldown, get_remaining_cooldown_minutes, get_cooldown_minutes,
      hdiff]
    rw [if_pos hnp]
    simp
  · intro hlt
    have hp : ¬((C : ℚ) * 60 - d ≤ 0) := by push_neg; linarith
    have h1 : (1 : ℤ) ≤ max 1 ⌊((C : ℚ) * 60 - d + 59) / 60⌋ := le_max_left _ _
    constructor
    · simp only [is_on_cooldown, get_remaining_cooldown_minutes, get_cooldown_minutes,
        hdiff]
      rw [if_neg hp]
      simp only [Prod.mk.injEq, decide_eq_true_eq]
      exact ⟨lt_of_lt_of_le zero_lt_one h1, trivial⟩
    · simp only [is_on_cooldown, get_remaining_cooldown_minutes, get_cooldown_minutes,
        hdiff]
      rw [if_neg hp]
      exact h1
  · intro r hr hrd
    have hp : ¬((C : ℚ) * 60 - d ≤ 0) := by
      push_neg
      rw [hrd]
      exact_mod_cast hr
    simp only [is_on_cooldown, get_remaining_cooldown_minutes, get_cooldown_minutes,
      hdiff]
    rw [if_neg hp, hrd]
    exact plus59_floor_eq_ceil r hr

/-- C1 witness: cooldown 60 minutes, last activity 1800 seconds (30 minutes)
before now = 10000: the check reports on-cooldown with 30 minutes
remaining. -/
theorem C1_cooldown_evaluation_witness :
    is_on_cooldown (.found (some 60)) (.found (some ((10000 : ℚ) - 1800))) 10000
      = (true, 30) := by
  have h := ((C1_cooldown_evaluation 60 1800 10000).2.2.1 (by norm_num)).1
  rw [h]
  norm_num

/-- C10 counterexample. The cooldown-setting fetch fails (connection error or
unparseable stored value), while the user row reads fine with last activity
60 seconds before now: get_cooldown_minutes degrades to the default 1440
minutes and the check reports on-cooldown with 1439 minutes remaining - not
(not-on-cooldown, 0) as claimed, so a storage error on the setting does not
make the rate limit disappear. -/
theorem C10_counterexample :
    is_on_cooldown .err (.found (some 0)) 60 = (true, 1439)
    ∧ ((true, (1439 : ℤ)) : Bool × ℤ) ≠ (false, 0) := by
  refine ⟨?_, by decide⟩
  show (decide _, _) = _
  norm_num [is_on_cooldown, get_remaining_cooldown_minutes, get_cooldown_minutes]

/-- C10 (amended): the fail-open behavior holds for the user-row side - a
failed read of the user_cooldowns row, or a stored timestamp that cannot be
parsed, makes the check return (not-on-cooldown, 0). A failed or unparseable
or absent cooldown-setting fetch instead degrades to the default 1440
minutes: the check then behaves exactly as with a stored setting of 1440 and
can still block the user. -/
theorem C10_fail_open (setting : Fetch (Option ℤ)) (row : Fetch (Option ℚ))
    (now : ℚ) :
    is_on_cooldown setting .err now = (false, 0)
    ∧ is_on_cooldown setting (.found none) now = (false, 0)
    ∧ is_on_cooldown .err row now = is_on_cooldown (.found (some 1440)) row now
    ∧ is_on_cooldown (.found none) row now
        = is_on_cooldown (.found (some 1440)) row now
    ∧ is_on_cooldown .missing row now
        = is_on_cooldown (.found (some 1440)) row now := by
  refine ⟨?_, ?_, rfl, rfl, rfl⟩
  · simp [is_on_cooldown, get_remaining_cooldown_minutes]
  · simp [is_on_cooldown, get_remaining_cooldown_minutes]

/-- C3 (code bug evaluation): Database.set_cooldown_minutes returns failure
on every input, storage health notwithstanding, because its INSERT OR
REPLACE names the columns updated_at and updated_by while Database.init
creates bot_settings with only key and value; sqlite rejects the statement,
the handler catches and returns False, and the settings are unchanged. -/
theorem C3_set_cooldown_always_fails (minutes updated_by : ℤ)
    (settings : List (String × String)) :
    set_cooldown_minutes minutes updated_by settings = (settings, false)
    ∧ "updated_at" ∈ set_cooldown_insert_columns
    ∧ "updated_at" ∉ bot_settings_columns := by
  refine ⟨?_, by decide, by decide⟩
  have hc : (set_cooldown_insert_columns.all fun c => bot_settings_columns.contains c)
      = false := by decide
  unfold set_cooldown_minutes
  rw [hc]
  simp

/-- Lookup after the UPDATE of toggle_test_mode: when a test_mode row exists,
the updated table stores the new value at that key. -/
theorem lookup_test_mode_update (new : String) (l : List (String × String))
    (v : String) (h : l.lookup "test_mode" = some v) :
    (l.map (fun r => if r.1 = "test_mode" then (r.1, new) else r)).lookup "test_mode"
      = some new := by
  induction l with
  | nil => simp [List.lookup] at h
  | cons a l ih =>
    obtain ⟨k, b⟩ := a
    by_cases ha : k = "test_mode"
    · subst ha
      simp [List.lookup]
    · have hb : ("test_mode" == k) = false := by
        simp only [beq_eq_false_iff_ne, ne_eq]
        exact fun hh => ha hh.symm
      simp only [List.lookup, hb] at h
      simp only [List.map_cons]
      rw [if_neg ha]
      simp only [List.lookup, hb]
      exact ih h

/-- C8 (code bug evaluation): the Database class has no set_test_mode
method, so switch_mode_command invoked by an administrator raises
AttributeError after reading the mode, leaving the stored settings unchanged
and sending nothing; a non-administrator is rejected with the
powers-unavailable notice and no change. The Database method
toggle_test_mode itself (which bot.py never calls) does flip the stored
flag and return the new mode. -/
theorem C8_switch_mode_bug (user_id : ℤ) (admins : List ℤ)
    (settings : List (String × String)) :
    "set_test_mode" ∉ database_class_methods
    ∧ (user_id ∈ admins →
        switch_mode_command user_id admins settings
          = (settings, [], some .attributeError))
    ∧ (user_id ∉ admins →
        switch_mode_command user_id admins settings
          = (settings, [.powersUnavailable], none))
    ∧ (toggle_test_mode settings).2 = !is_test_mode settings
    ∧ (∀ v, settings.lookup "test_mode" = some v →
        is_test_mode (toggle_test_mode settings).1 = !is_test_mode settings) := by
  refine ⟨by decide, ?_, ?_, rfl, ?_⟩
  · intro hmem
    simp [switch_mode_command, hmem]
  · intro hmem
    simp [switch_mode_command, hmem]
  · intro v hv
    cases hm : is_test_mode settings
    · have h1 : (toggle_test_mode settings).1
          = settings.map (fun r => if r.1 = "test_mode" then (r.1, "true") else r) := by
        unfold toggle_test_mode
        rw [hm]
        rfl
      rw [h1]
      unfold is_test_mode
      rw [lookup_test_mode_update "true" settings v hv]
      decide
    · have h1 : (toggle_test_mode settings).1
          = settings.map (fun r => if r.1 = "test_mode" then (r.1, "false") else r) := by
        unfold toggle_test_mode
        rw [hm]
        rfl
      rw [h1]
      unfold is_test_mode
      rw [lookup_test_mode_update "false" settings v hv]
      decide

/-- C8 witness: an administrator (id 7, admin list [7]) with the flag
stored false: the command errors with the settings intact, while the unused
Database.toggle_test_mode would flip the flag. -/
theorem C8_switch_mode_bug_witness :
    (7 : ℤ) ∈ ([7] : List ℤ)
    ∧ switch_mode_command 7 [7] [("test_mode", "false")]
        = ([("test_mode", "false")], [], some .attributeError)
    ∧ is_test_mode (toggle_test_mode [("test_mode", "false")]).1
        = !is_test_mode [("test_mode", "false")] :=
  ⟨by decide,
   (C8_switch_mode_bug 7 [7] [("test_mode", "false")]).2.1 (by decide),
   (C8_switch_mode_bug 7 [7] [("test_mode", "false")]).2.2.2.2 "false" (by decide)⟩

/-- Membership of a key in a cooldown table matches the any-test used by
update_last_request. -/
theorem cooldown_any_key (U : ℤ) (l : List (ℤ × ℚ)) :
    (l.any fun r => decide (r.1 = U)) = true ↔ U ∈ l.map Prod.fst := by
  simp only [List.any_eq_true, decide_eq_true_eq, List.mem_map]

/-- Replacing the row of key U does not change the key column. -/
theorem cooldown_replace_keys (U : ℤ) (t : ℚ) (l : List (ℤ × ℚ)) :
    (l.map (fun r => if r.1 = U then (U, t) else r)).map Prod.fst
      = l.map Prod.fst := by
  induction l with
  | nil => rfl
  | cons a l ih =>
    by_cases ha : a.1 = U <;> simp [ha, ih]

/-- Replacing the row of an absent key changes nothing. -/
theorem cooldown_replace_of_not_mem (U : ℤ) (t : ℚ) (l : List (ℤ × ℚ))
    (hnot : U ∉ l.map Prod.fst) :
    l.map (fun r => if r.1 = U then (U, t) else r) = l := by
  induction l with
  | nil => rfl
  | cons a l ih =>
    simp only [List.map_cons, List.mem_cons, not_or] at hnot
    rw [List.map_cons, if_neg (fun hh => hnot.1 hh.symm), ih hnot.2]

/-- Filtering an absent key yields the empty list. -/
theorem cooldown_filter_of_not_mem (U : ℤ) (l : List (ℤ × ℚ))
    (hnot : U ∉ l.map Prod.fst) :
    l.filter (fun r => decide (r.1 = U)) = [] := by
  rw [List.filter_eq_nil]
  intro r hr
  simp only [decide_eq_true_eq]
  exact fun hh => hnot (List.mem_map.mpr ⟨r, hr, hh⟩)

/-- After replacing the row of a present key in a key-unique table, exactly
the row (U, t) has key U. -/
theorem cooldown_filter_replace (U : ℤ) (t : ℚ) (l : List (ℤ × ℚ))
    (h : (l.map Prod.fst).Nodup) (hm : U ∈ l.map Prod.fst) :
    (l.map (fun r => if r.1 = U then (U, t) else r)).filter
        (fun r => decide (r.1 = U)) = [(U, t)] := by
  induction l with
  | nil => simp at hm
  | cons a l ih =>
    simp only [List.map_cons, List.nodup_cons] at h
    by_cases ha : a.1 = U
    · have hnot : U ∉ l.map Prod.fst := ha ▸ h.1
      rw [List.map_cons, if_pos ha, cooldown_replace_of_not_mem U t l hnot]
      rw [List.filter_cons_of_pos (by simp), cooldown_filter_of_not_mem U l hnot]
    · have hm2 : U ∈ l.map Prod.fst := by
        rw [List.map_cons] at hm
        rcases List.mem_cons.mp hm with hh | hh
        · exact absurd hh.symm ha
        · exact hh
      rw [List.map_cons, if_neg ha,
        List.filter_cons_of_neg (by simpa using ha), ih h.2 hm2]

/-- Every row of the updated table carrying key U is exactly (U, t). -/
theorem cooldown_update_rows (U : ℤ) (t : ℚ) (table : List (ℤ × ℚ)) :
    ∀ r ∈ update_last_request U t table, r.1 = U → r = (U, t) := by
  intro r hr hrU
  unfold update_last_request at hr
  by_cases hany : (table.any fun r => decide (r.1 = U)) = true
  · rw [if_pos hany] at hr
    obtain ⟨s, _, hs⟩ := List.mem_map.mp hr
    by_cases hsU : s.1 = U
    · rw [if_pos hsU] at hs
      exact hs.symm
    · rw [if_neg hsU] at hs
      exact absurd (hs ▸ hrU) hsU
  · rw [if_neg hany] at hr
    rcases List.mem_append.mp hr with hh | hh
    · exact absurd hrU (by
        intro hu
        exact hany ((cooldown_any_key U table).mpr (List.mem_map.mpr ⟨r, hh, hu⟩)))
    · simpa using hh

/-- The key U is present after the upsert. -/
theorem cooldown_update_mem (U : ℤ) (t : ℚ) (table : List (ℤ × ℚ)) :
    U ∈ (update_last_request U t table).map Prod.fst := by
  unfold update_last_request
  by_cases hany : (table.any fun r => decide (r.1 = U)) = true
  · rw [if_pos hany, cooldown_replace_keys]
    exact (cooldown_any_key U table).mp hany
  · rw [if_neg hany, List.map_append]
    exact List.mem_append_right _ (by simp)

/-- C9: recording activity is an upsert. Starting from any table whose key
column is duplicate-free, one upsert of (U, t) leaves exactly one row with
key U, that row being (U, t); a second identical upsert changes nothing;
and the key column stays duplicate-free, so there is always at most one
cooldown row per user identifier. -/
theorem C9_record_activity_upsert (U : ℤ) (t : ℚ) (table : List (ℤ × ℚ))
    (h : (table.map Prod.fst).Nodup) :
    update_last_request U t (update_last_request U t table)
        = update_last_request U t table
    ∧ (update_last_request U t table).filter (fun r => decide (r.1 = U)) = [(U, t)]
    ∧ ((update_last_request U t table).map Prod.fst).Nodup := by
  refine ⟨?_, ?_, ?_⟩
  · have hany2 : ((update_last_request U t table).any fun r => decide (r.1 = U))
        = true :=
      (cooldown_any_key U _).mpr (cooldown_update_mem U t table)
    conv_lhs => rw [update_last_request]
    rw [if_pos hany2]
    have hmap : ∀ r ∈ update_last_request U t table,
        (if r.1 = U then (U, t) else r) = r := by
      intro r hr
      by_cases hrU : r.1 = U
      · rw [if_pos hrU, cooldown_update_rows U t table r hr hrU]
      · rw [if_neg hrU]
    calc (update_last_request U t table).map
            (fun r => if r.1 = U then (U, t) else r)
        = (update_last_request U t table).map id := List.map_congr_left hmap
      _ = update_last_request U t table := List.map_id _
  · unfold update_last_request
    by_cases hany : (table.any fun r => decide (r.1 = U)) = true
    · rw [if_pos hany]
      exact cooldown_filter_replace U t table h ((cooldown_any_key U table).mp hany)
    · rw [if_neg hany, List.filter_append,
        cooldown_filter_of_not_mem U table
          (fun hm => hany ((cooldown_any_key U table).mpr hm))]
      simp
  · unfold update_last_request
    by_cases hany : (table.any fun r => decide (r.1 = U)) = true
    · rw [if_pos hany, cooldown_replace_keys]
      exact h
    · rw [if_neg hany, List.map_append]
      have hnot : U ∉ table.map Prod.fst :=
        fun hm => hany ((cooldown_any_key U table).mpr hm)
      simp only [List.map_cons, List.map_nil]
      exact List.Nodup.append h (List.nodup_singleton U)
        (fun a ha hb => by
          simp only [List.mem_singleton] at hb
          exact hnot (hb ▸ ha))

/-- C9 witness: upserting (1, 9) into the table [(1, 5), (2, 7)]. -/
theorem C9_record_activity_upsert_witness :
    ((([(1, 5), (2, 7)] : List (ℤ × ℚ)).map Prod.fst).Nodup)
    ∧ (update_last_request 1 9 (update_last_request 1 9 [(1, 5), (2, 7)])
          = update_last_request 1 9 [(1, 5), (2, 7)]
       ∧ (update_last_request 1 9 [(1, 5), (2, 7)]).filter
            (fun r => decide (r.1 = 1)) = [(1, 9)]
       ∧ ((update_last_request 1 9 [(1, 5), (2, 7)]).map Prod.fst).Nodup) :=
  ⟨by decide, C9_record_activity_upsert 1 9 [(1, 5), (2, 7)] (by decide)⟩

/-- C7 counterexample. Over an empty log the stats call returns without
error, with total 0, unique users 0 and empty top lists, but the success and
failure counts are the SQL NULL of a SUM over no rows - not 0 as
claimed. -/
theorem C7_counterexample :
    get_user_stats [] 7 0 true
      = some { period_days := 7, total_requests := 0, unique_users := 0,
               successful_requests := none, failed_requests := none,
               top_users := [], top_questions := [] }
    ∧ (none : Option ℕ) ≠ some 0 := by
  refine ⟨?_, by decide⟩
  simp [get_user_stats, top_five, group_counts]

/-- C7 (amended): over a window with no log entries the stats call returns
an aggregate (never an error) with total requests 0, unique users 0 and
empty top lists, but with NULL - not 0 - success and failure counts; when
the store is unreadable it returns the empty dict (no aggregate at all),
again without raising. -/
theorem C7_empty_window_stats (log : List LogEntry) (days : ℕ) (now : ℚ)
    (h : ∀ e ∈ log, e.timestamp ≤ now - days * 86400) :
    get_user_stats log days now true
      = some { period_days := days, total_requests := 0, unique_users := 0,
               successful_requests := none, failed_requests := none,
               top_users := [], top_questions := [] }
    ∧ get_user_stats log days now false = none := by
  refine ⟨?_, rfl⟩
  have hw : log.filter (fun e => decide (now - days * 86400 < e.timestamp)) = [] := by
    rw [List.filter_eq_nil]
    intro e he
    simp only [decide_eq_true_eq]
    exact not_lt.mpr (h e he)
  simp [get_user_stats, hw, top_five, group_counts]

/-- C7 witness: one log entry, 7-day window, entry far older than the
cutoff. -/
theorem C7_empty_window_stats_witness :
    get_user_stats [⟨5, some "u", "q", "c", 0, true⟩] 7 1000000 true
      = some { period_days := 7, total_requests := 0, unique_users := 0,
               successful_requests := none, failed_requests := none,
               top_users := [], top_questions := [] } :=
  (C7_empty_window_stats [⟨5, some "u", "q", "c", 0, true⟩] 7 1000000 (by
    intro e he
    rw [List.mem_singleton] at he
    subst he
    norm_num)).1

/-- C6: in every session that passes the cooldown check, the first two
effects are recording the last-activity timestamp and then drawing the
cards; every narration send comes later, in all branches. -/
theorem C6_activity_recorded_first (uid : ℤ) (username question : String)
    (admins : List ℤ) (cooldownRes : Bool × ℤ) (cards : List String)
    (testMode : Bool) (gptResult : Except Unit String) (fail : FailPoint)
    (h : cooldownRes.1 = false) :
    (handle_message uid username question admins cooldownRes cards testMode
        gptResult fail).take 2 = [.recordActivity uid, .drawCards cards] := by
  unfold handle_message
  rw [h]
  rfl

/-- C6 witness: a concrete accepted session. -/
theorem C6_activity_recorded_first_witness :
    ((false, (0 : ℤ)) : Bool × ℤ).1 = false
    ∧ (handle_message 1 "u" "q" [] (false, 0) ["a", "b", "c"] false (.ok "t")
        .noFailure).take 2 = [.recordActivity 1, .drawCards ["a", "b", "c"]] :=
  ⟨rfl, C6_activity_recorded_first 1 "u" "q" [] (false, 0) ["a", "b", "c"]
    false (.ok "t") .noFailure rfl⟩

/-- C4: random.sample over a duplicate-free catalog with three valid
distinct positions returns exactly 3 pairwise-distinct catalog elements,
and handle_message assigns the roles by draw position: the first drawn card
is captioned past, the second present, the third future, with no
re-sorting, in every non-failing accepted session. -/
theorem C4_draw_three (population : List String) (idxs : List ℕ)
    (hpop : population.Nodup) (hlen : idxs.length = 3) (hnd : idxs.Nodup)
    (hlt : ∀ i ∈ idxs, i < population.length)
    (uid : ℤ) (username question : String) (admins : List ℤ) (rem : ℤ)
    (testMode : Bool) (gptResult : Except Unit String) :
    (randomSample population idxs).length = 3
    ∧ (randomSample population idxs).Nodup
    ∧ (∀ c ∈ randomSample population idxs, c ∈ population)
    ∧ cardImageCaptions
        (handle_message uid username question admins (false, rem)
          (randomSample population idxs) testMode gptResult .noFailure)
      = [.pastCard ((randomSample population idxs).getD 0 ""),
         .presentCard ((randomSample population idxs).getD 1 ""),
         .futureCard ((randomSample population idxs).getD 2 "")] := by
  refine ⟨by simp [randomSample, hlen], ?_, ?_, ?_⟩
  · unfold randomSample
    refine List.Nodup.map_on ?_ hnd
    intro i hi j hj hij
    rw [List.getD_eq_getElem population "" (hlt i hi),
      List.getD_eq_getElem population "" (hlt j hj)] at hij
    exact (List.Nodup.getElem_inj_iff hpop).mp hij
  · intro c hc
    unfold randomSample at hc
    obtain ⟨i, hi, hci⟩ := List.mem_map.mp hc
    rw [List.getD_eq_getElem population "" (hlt i hi)] at hci
    exact hci ▸ List.getElem_mem _
  · by_cases ht : testMode ∧ uid ∈ admins
    · simp [handle_message, cardImageCaptions, ht]
    · cases gptResult with
      | error e => simp [handle_message, cardImageCaptions, ht]
      | ok r => simp [handle_message, cardImageCaptions, ht]

/-- C4 witness: the tarot catalog of constants.py (36 distinct names) with
positions 2, 0, 1. -/
theorem C4_draw_three_witness :
    (randomSample tarot_catalog [2, 0, 1]).length = 3
    ∧ (randomSample tarot_catalog [2, 0, 1]).Nodup
    ∧ (∀ c ∈ randomSample tarot_catalog [2, 0, 1], c ∈ tarot_catalog)
    ∧ cardImageCaptions
        (handle_message 1 "u" "q" [] (false, 0)
          (randomSample tarot_catalog [2, 0, 1]) false (.ok "t") .noFailure)
      = [.pastCard ((randomSample tarot_catalog [2, 0, 1]).getD 0 ""),
         .presentCard ((randomSample tarot_catalog [2, 0, 1]).getD 1 ""),
         .futureCard ((randomSample tarot_catalog [2, 0, 1]).getD 2 "")] :=
  C4_draw_three tarot_catalog [2, 0, 1] (by decide) rfl (by decide)
    (by decide) 1 "u" "q" [] 0 false (.ok "t")

/-- C2 counterexample. A test-mode session for an administrator that passes
the cooldown gate and completes its whole sequence (narration plus the
test-mode notice in place of the generated text) writes no log entry at
all, not the single success entry the claim requires. -/
theorem C2_counterexample :
    logEvents (handle_message 7 "u" "q" [7] (false, 0) ["Шут", "Маг", "Башня"]
      true (.ok "t") .noFailure) = []
    ∧ ¬(([] : List Ev).length = 1) :=
  ⟨rfl, by decide⟩

/-- C2 (amended): a cooldown-rejected session writes no log entry unless
sending the cooldown notice itself raises, in which case the outermost
handler writes one failure entry. An accepted session that completes with a
successful generation call writes exactly one success entry carrying the 3
drawn cards; an accepted session completing in test mode, or failing at the
interpretation stage (generation call raising, or the
interpretation-start send raising), writes no entry; an accepted session
whose narration raises writes exactly one failure entry with an empty card
list. -/
theorem C2_log_invariant (uid : ℤ) (username question : String)
    (admins : List ℤ) (cooldownRes : Bool × ℤ) (cards : List String)
    (testMode : Bool) (gptResult : Except Unit String) (fail : FailPoint) :
    (cooldownRes.1 = true → fail ≠ .cooldownNoticeSend →
      logEvents (handle_message uid username question admins cooldownRes cards
        testMode gptResult fail) = [])
    ∧ (cooldownRes.1 = true → fail = .cooldownNoticeSend →
      logEvents (handle_message uid username question admins cooldownRes cards
        testMode gptResult fail)
        = [.logRequest uid username question [] false])
    ∧ (cooldownRes.1 = false → fail = .noFailure →
      ¬(testMode ∧ uid ∈ admins) → ∀ r, gptResult = .ok r →
      logEvents (handle_message uid username question admins cooldownRes cards
        testMode gptResult fail)
        = [.logRequest uid username question cards true])
    ∧ (cooldownRes.1 = false → fail = .noFailure → testMode ∧ uid ∈ admins →
      logEvents (handle_message uid username question admins cooldownRes cards
        testMode gptResult fail) = [])
    ∧ (cooldownRes.1 = false → fail = .noFailure → gptResult = .error () →
      logEvents (handle_message uid username question admins cooldownRes cards
        testMode gptResult fail) = [])
    ∧ (cooldownRes.1 = false →
      fail = .readingStartSend ∨ fail = .secondIntroSend ∨ fail = .thirdIntroSend →
      logEvents (handle_message uid username question admins cooldownRes cards
        testMode gptResult fail)
        = [.logRequest uid username question [] false])
    ∧ (cooldownRes.1 = false → fail = .interpStartSend →
      logEvents (handle_message uid username question admins cooldownRes cards
        testMode gptResult fail) = []) := by
  refine ⟨?_, ?_, ?_, ?_, ?_, ?_, ?_⟩
  · intro h hf
    simp [handle_message, logEvents, isLogRequest, h, hf]
  · intro h hf
    subst hf
    simp [handle_message, logEvents, isLogRequest, h]
  · intro h hf ht r hr
    subst hf
    subst hr
    simp [handle_message, logEvents, isLogRequest, h, ht]
  · intro h hf ht
    subst hf
    simp [handle_message, logEvents, isLogRequest, h, ht]
  · intro h hf hg
    subst hf
    subst hg
    by_cases ht : testMode ∧ uid ∈ admins
    · simp [handle_message, logEvents, isLogRequest, h, ht]
    · simp [handle_message, logEvents, isLogRequest, h, ht]
  · intro h hf
    rcases hf with hf | hf | hf <;> subst hf <;>
      simp [handle_message, logEvents, isLogRequest, h]
  · intro h hf
    subst hf
    simp [handle_message, logEvents, isLogRequest, h]

/-- C2 witness: an accepted non-test session with a successful generation
call logs exactly one success entry with the drawn cards. -/
theorem C2_log_invariant_witness :
    logEvents (handle_message 1 "u" "q" [] (false, 0) ["a", "b", "c"] false
      (.ok "t") .noFailure) = [.logRequest 1 "u" "q" ["a", "b", "c"] true] :=
  (C2_log_invariant 1 "u" "q" [] (false, 0) ["a", "b", "c"] false (.ok "t")
    .noFailure).2.2.1 rfl rfl (by simp) "t" rfl

/-- C5 counterexample. In a concrete accepted non-test session with a
successful generation call, the event at position 16 is the success log
write and the event at position 17 - after it - is the user-visible send of
the interpretation text: the session emits a user-visible message after its
log entry has been written, against the claim. -/
theorem C5_counterexample :
    (handle_message 1 "u" "q" [] (false, 0) ["a", "b", "c"] false (.ok "t")
        .noFailure).drop 16
      = [.logRequest 1 "u" "q" ["a", "b", "c"] true,
         .send (.interpretationText "t")] :=
  rfl

/-- C5 (amended): the log entry is written after all narration output
(reading start, the three card steps and intros, the interpretation-start
notice) has been attempted, but not after all user-visible output: in the
successful path the interpretation text is sent after the success entry is
written, and in a narration-failure path the error notice is sent after
the failure entry is written. -/
theorem C5_log_position (uid : ℤ) (username question : String)
    (admins : List ℤ) (cooldownRes : Bool × ℤ) (cards : List String)
    (testMode : Bool) (gptResult : Except Unit String) :
    (cooldownRes.1 = false → ¬(testMode ∧ uid ∈ admins) →
      ∀ r, gptResult = .ok r →
      handle_message uid username question admins cooldownRes cards testMode
          gptResult .noFailure
        = [.recordActivity uid, .drawCards cards, .send .readingStart,
           .sleep 2, .sendCardImage (cards.getD 0 "") (.pastCard (cards.getD 0 "")),
           .sleep 2, .send .secondCardIntro,
           .sleep 1, .sendCardImage (cards.getD 1 "") (.presentCard (cards.getD 1 "")),
           .sleep 2, .send .thirdCardIntro,
           .sleep 1, .sendCardImage (cards.getD 2 "") (.futureCard (cards.getD 2 "")),
           .sleep 2, .send .interpretationStart, .sleep 3,
           .logRequest uid username question cards true,
           .send (.interpretationText (if r = "" then CARDS_SILENT else r))])
    ∧ (cooldownRes.1 = false →
      handle_message uid username question admins cooldownRes cards testMode
          gptResult .readingStartSend
        = [.recordActivity uid, .drawCards cards, .send .readingStart,
           .logRequest uid username question [] false, .send .errorMessage]) := by
  constructor
  · intro h ht r hr
    subst hr
    simp [handle_message, h, ht]
  · intro h
    simp [handle_message, h]

/-- C5 witness: a concrete successful session with an empty generated text,
ending in the log write followed by the cards-silent fallback send. -/
theorem C5_log_position_witness :
    handle_message 2 "v" "w" [] (false, 5) ["x", "y", "z"] false (.ok "")
        .noFailure
      = [.recordActivity 2, .drawCards ["x", "y", "z"], .send .readingStart,
         .sleep 2, .sendCardImage "x" (.pastCard "x"),
         .sleep 2, .send .secondCardIntro,
         .sleep 1, .sendCardImage "y" (.presentCard "y"),
         .sleep 2, .send .thirdCardIntro,
         .sleep 1, .sendCardImage "z" (.futureCard "z"),
         .sleep 2, .send .interpretationStart, .sleep 3,
         .logRequest 2 "v" "w" ["x", "y", "z"] true,
         .send (.interpretationText CARDS_SILENT)] := by
  have h := (C5_log_position 2 "v" "w" [] (false, 5) ["x", "y", "z"] false
    (.ok "")).1 rfl (by simp) "" rfl
  simpa using h

end TarotBot
